import Mathlib

/-!
Verification of the staged ETL pipeline in `services/h2o_ingestor/ingest.py`.

The development shallowly embeds the pipeline's pure data transformations
(column projection, null-value row filtering, document-record building,
schema ensuring) as executable Lean functions over an explicit `Frame`
model, and embeds the effectful orchestration (`main`, `wait_for_weaviate`,
`process_with_h2o`'s engine scoping) as functions over environments that
supply the outcome of each external call.  Log statements are modelled as
event values accumulated alongside results.
-/

set_option autoImplicit false

namespace H2OIngest

/-- An error raised by an external collaborator (network, engine, database).
The orchestrator never inspects the payload, so a plain string suffices. -/
abbrev Err := String

/-- A scalar cell value of a tabular frame: a string or a number.
Numbers are modelled as integers; no claim performs arithmetic on them. -/
inductive Val where
  | str (s : String)
  | num (n : Int)
  deriving DecidableEq

/-- A cell is a scalar or null/missing (`None`/`NaN` in pandas). -/
abbrev Cell := Option Val

/-- A named column: name together with its cell sequence. -/
abbrev Column := String × List Cell

/-- A tabular frame: an ordered sequence of named columns
(`pd.DataFrame` / `H2OFrame` in the source). -/
abbrev Frame := List Column

/-- `SELECT_COLS` from ingest.py line 56: the fixed allow-list of columns. -/
def SELECT_COLS : List String :=
  ["location", "city", "country", "parameter", "value", "unit"]

/-- The column names of a frame, in order (`df.columns`). -/
def colNames (df : Frame) : List String := df.map Prod.fst

/-- First column with the given name (`df[name]`), if any. -/
def lookupCol : Frame → String → Option (List Cell)
  | [], _ => none
  | c :: cs, n => if c.1 = n then some c.2 else lookupCol cs n

/-- Number of rows of a frame (`len(df)`): length of the first column.
All columns agree on a `wellFormed` frame. -/
def rowCount : Frame → Nat
  | [] => 0
  | c :: _ => c.2.length

/-- Every column has the common row count (the pandas DataFrame invariant). -/
def wellFormed (df : Frame) : Prop := ∀ c ∈ df, c.2.length = rowCount df

/-- Boolean-mask row selection (`df[mask]`): keep the cells whose mask
entry is `true`. -/
def maskFilter : List Bool → List Cell → List Cell
  | b :: bs, x :: xs => if b then x :: maskFilter bs xs else maskFilter bs xs
  | _, _ => []

/-- Log events emitted by `process_with_pandas` (lines 180-207). -/
inductive PLog where
  | keepingCols (cs : List String)
  | warnNoCols
  | droppedRows (n : Nat)
  | warnNoValue
  deriving DecidableEq

/-- The column-projection block of `process_with_pandas` (ingest.py
lines 184-192): `cols_to_keep = [c for c in df.columns if c in
SELECT_COLS]`; when empty, keep the whole frame and warn, else keep the
matching columns (their original relative order) and log them. -/
def projectStep (df_raw : Frame) : Frame × List PLog :=
  match (colNames df_raw).filter (fun c => decide (c ∈ SELECT_COLS)) with
  | [] => (df_raw, [PLog.warnNoCols])
  | a :: l =>
    (df_raw.filter (fun c => decide (c.1 ∈ SELECT_COLS)), [PLog.keepingCols (a :: l)])

/-- The row-filtering block of `process_with_pandas` (ingest.py lines
194-199): when a `value` column is present, keep exactly the rows whose
`value` cell is non-null (pandas `df[df["value"].notna()]` applies one
boolean mask to every column) and log the number dropped; else warn and
keep every row. -/
def filterStep (df1 : Frame) : Frame × List PLog :=
  match lookupCol df1 "value" with
  | some vcells =>
    let mask := vcells.map Option.isSome
    let out := df1.map (fun c => (c.1, maskFilter mask c.2))
    (out, [PLog.droppedRows (rowCount df1 - rowCount out)])
  | none => (df1, [PLog.warnNoValue])

/-- `process_with_pandas` (ingest.py lines 175-208), as the pure frame
transformation plus its log events.  File persistence (`to_csv`) is
external I/O and not part of the frame semantics. -/
def process_with_pandas (df_raw : Frame) : Frame × List PLog :=
  let step1 := projectStep df_raw
  let step2 := filterStep step1.1
  (step2.1, step1.2 ++ step2.2)

/-- Log events emitted by the H2O cleaning steps (lines 141-155). -/
inductive HLog where
  | keepingCols (cs : List String)
  | warnNoCols
  | droppingRows
  | warnNoValue
  deriving DecidableEq

/-- The column projection of the H2O path (ingest.py lines 141-149):
the same `cols_to_keep` comprehension and `hf[cols_to_keep]`
projection, with the H2O path's log messages. -/
def h2o_project (df_raw : Frame) : Frame × List HLog :=
  match (colNames df_raw).filter (fun c => decide (c ∈ SELECT_COLS)) with
  | [] => (df_raw, [HLog.warnNoCols])
  | a :: l =>
    (df_raw.filter (fun c => decide (c.1 ∈ SELECT_COLS)), [HLog.keepingCols (a :: l)])

/-- The row filtering of the H2O path (ingest.py lines 151-155):
`hf[~hf["value"].isna()]` when a `value` column exists, else a warning
and no filtering. -/
def h2o_dropMissing (df1 : Frame) : Frame × List HLog :=
  match lookupCol df1 "value" with
  | some vcells =>
    let mask := vcells.map Option.isSome
    let out := df1.map (fun c => (c.1, maskFilter mask c.2))
    (out, [HLog.droppingRows])
  | none => (df1, [HLog.warnNoValue])

/-- The columnar cleaning steps of `process_with_h2o` (ingest.py lines
141-155) on the frame contents.  Engine start/stop and conversion are
modelled separately by `process_with_h2o_run`. -/
def h2o_clean (df_raw : Frame) : Frame × List HLog :=
  let step1 := h2o_project df_raw
  let step2 := h2o_dropMissing step1.1
  (step2.1, step1.2 ++ step2.2)

/-! ### Readiness gate: `wait_for_weaviate` (ingest.py lines 64-96) -/

/-- The Weaviate error classes distinguished by the `except` clauses of
`wait_for_weaviate` (lines 80-90). -/
inductive WErr where
  | insufficientPermissions
  | unexpectedStatus
  | weaviateBase
  | other
  deriving DecidableEq

/-- Log events of `wait_for_weaviate`.  Each error class has its own
warning message; they differ in no other way. -/
inductive WLog where
  | readyLog
  | warnPermissions
  | warnStatus
  | warnBase
  | warnOther
  | retryLog
  deriving DecidableEq

/-- The warning message logged for each caught error class
(lines 80-90: one `logger.warning` per `except` clause). -/
def warnMsgOf : WErr → WLog
  | .insufficientPermissions => .warnPermissions
  | .unexpectedStatus => .warnStatus
  | .weaviateBase => .warnBase
  | .other => .warnOther

/-- The external world seen by `wait_for_weaviate`: per loop iteration `k`,
the outcome of `_connect_weaviate_v4()` (line 73), the outcome of
`client.collections.list_all()` (line 76), and the elapsed wall-clock
time `time.time() - start` observed at iteration `k`'s timeout check
(line 92). -/
structure WEnv where
  connect : Nat → Except WErr Unit
  listAll : Nat → Except WErr Unit
  elapsed : Nat → Int

/-- Result of the readiness loop: the connection returned after a ready
check at iteration `k`, the `RuntimeError` timeout raised at iteration
`k`, or an exception from `_connect_weaviate_v4` escaping the loop at
iteration `k` (the connect call sits outside the `try`, line 73). -/
inductive WaitRes where
  | ready (k : Nat)
  | timedOut (k : Nat)
  | raised (k : Nat) (e : WErr)
  deriving DecidableEq

/-- The loop body of `wait_for_weaviate` (lines 72-96), starting at
iteration `k`, with recursion fuel (the Python loop is unbounded;
`none` means the fuel ran out before the loop decided).
- the connect call of line 73 is outside the `try`: its exception
  propagates out of the function at once, no logging, no retry;
- a successful `list_all` returns the connection (lines 76-78);
- any caught error class logs its warning, then the timeout check of
  line 92 either raises `RuntimeError` or retries after the sleep. -/
def wait_for_weaviate_go (env : WEnv) (timeout : Int) : Nat → Nat → Option (WaitRes × List WLog)
  | 0, _ => none
  | fuel + 1, k =>
    match env.connect k with
    | .error e => some (.raised k e, [])
    | .ok _ =>
      match env.listAll k with
      | .ok _ => some (.ready k, [.readyLog])
      | .error e =>
        if env.elapsed k > timeout then
          some (.timedOut k, [warnMsgOf e])
        else
          (wait_for_weaviate_go env timeout fuel (k + 1)).map
            (fun p => (p.1, warnMsgOf e :: WLog.retryLog :: p.2))

/-- `wait_for_weaviate(timeout)` (line 64): run the loop from iteration 0. -/
def wait_for_weaviate (env : WEnv) (timeout : Int) (fuel : Nat) : Option (WaitRes × List WLog) :=
  wait_for_weaviate_go env timeout fuel 0

/-! ### Engine scoping: `process_with_h2o` (ingest.py lines 127-172) -/

/-- Events of one `process_with_h2o` invocation that matter to the
resource-scoping contract. -/
inductive HEvent where
  | initCall
  | shutdownCall
  | shutdownWarnLog (e : Err)
  deriving DecidableEq

/-- The external calls made by one `process_with_h2o` invocation:
`h2o.init()` (line 135), the cleaning body of the `try` block
(lines 138-165, conversion + `h2o_clean` steps + persistence), and
`h2o.shutdown(prompt=False)` (line 170). -/
structure H2OEnv where
  engineStart : Except Err Unit
  body : Except Err Frame
  engineStop : Except Err Unit

/-- Control flow of `process_with_h2o` (lines 127-172): `h2o.init()` runs
before the `try`, so its failure propagates with no shutdown attempt;
otherwise the `finally` block always attempts `h2o.shutdown`, and a
shutdown exception is caught and logged (lines 169-172), never changing
the body's outcome. -/
def process_with_h2o_run (env : H2OEnv) : List HEvent × Except Err Frame :=
  match env.engineStart with
  | .error e => ([.initCall], .error e)
  | .ok _ =>
    let shutEvents : List HEvent :=
      match env.engineStop with
      | .ok _ => [.shutdownCall]
      | .error e => [.shutdownCall, .shutdownWarnLog e]
    (.initCall :: shutEvents, env.body)

/-! ### Schema ensurer: `ensure_weaviate_schema` (ingest.py lines 244-268) -/

/-- A Weaviate property data type (`DataType.TEXT` / `DataType.NUMBER`). -/
inductive DType where
  | text
  | number
  deriving DecidableEq

/-- `WEAVIATE_CLASS` (line 48), at its default value. -/
def WEAVIATE_CLASS : String := "Measurement"

/-- The fixed six-attribute schema of lines 259-266. -/
def measurementProperties : List (String × DType) :=
  [("location", .text), ("city", .text), ("country", .text),
   ("parameter", .text), ("value", .number), ("unit", .text)]

/-- The document store's collection state: named collections with their
property schemas, in creation order. -/
abbrev Store := List (String × List (String × DType))

/-- The names returned by `client.collections.list_all()` (line 249). -/
def storeNames (s : Store) : List String := s.map Prod.fst

/-- `ensure_weaviate_schema` (lines 244-268) as a store transformer:
list existing collection names; if `WEAVIATE_CLASS` is present, return
with no change (lines 251-253); otherwise create it with the fixed
six-attribute schema (lines 257-268). -/
def ensure_weaviate_schema (s : Store) : Store :=
  if WEAVIATE_CLASS ∈ storeNames s then s
  else s ++ [(WEAVIATE_CLASS, measurementProperties)]

/-! ### Document records: `ingest_into_weaviate` (ingest.py lines 271-309) -/

/-- One object of the `insert_many` payload (lines 290-301). -/
structure DocRecord where
  location : String
  city : String
  country : String
  parameter : String
  value : Option Int
  unit : String
  deriving DecidableEq

/-- Python `str()` applied to a cell obtained from a present column:
strings unchanged, numbers rendered, a missing value rendered as the
engine's null marker (pandas `str(nan)`), never the empty string. -/
def cellText : Cell → String
  | some (.str s) => s
  | some (.num n) => toString n
  | none => "nan"

/-- `str(row.get(c, ""))` for row `i` (lines 292-295, 299): the empty
string when column `c` is absent from the frame, else the rendered cell. -/
def textAttr (df : Frame) (c : String) (i : Nat) : String :=
  match lookupCol df c with
  | none => ""
  | some cells => cellText (cells.getD i none)

/-- `float()` of a scalar: defined on numbers; a string cell is outside
the domain (Python would raise), modelled as `none` and excluded by the
numeric-cells hypothesis of the record-building theorem. -/
def floatOfVal : Val → Option Int
  | .num n => some n
  | .str _ => none

/-- The `value` attribute of row `i` (lines 296-298):
`float(row.get("value", 0)) if pd.notnull(row.get("value", None)) else None`
— null (or column absent) gives an absent number, a non-null cell gives
its numeric value. -/
def numAttr (df : Frame) (i : Nat) : Option Int :=
  match lookupCol df "value" with
  | none => none
  | some cells =>
    match cells.getD i none with
    | none => none
    | some v => floatOfVal v

/-- The object built for row `i` (lines 290-301). -/
def buildRecord (df : Frame) (i : Nat) : DocRecord :=
  { location := textAttr df "location" i
    city := textAttr df "city" i
    country := textAttr df "country" i
    parameter := textAttr df "parameter" i
    value := numAttr df i
    unit := textAttr df "unit" i }

/-- The full `objects` list handed to the single `insert_many` call
(lines 288-303): one record per row of the frame, in row order. -/
def weaviate_objects (df : Frame) : List DocRecord :=
  (List.range (rowCount df)).map (buildRecord df)

/-! ### Orchestrator: `main` (ingest.py lines 327-372) -/

/-- Stage-transition and failure-log events of one `main` run. -/
inductive Event where
  | fetchCall
  | loadCall
  | h2oInvoked
  | h2oFailedLog (e : Err)
  | pandasInvoked
  | skipWeaviateLog
  | weaviateInvoked
  | weaviateFailedLog (e : Err)
  | skipPostgresLog
  | postgresInvoked
  | completedLog
  deriving DecidableEq

/-- The configuration flags and external stage outcomes seen by one
`main` run: the three skip flags (lines 51-53) and, for each stage,
the result of invoking it (`.error` models a raised exception). -/
structure OrchEnv where
  skipH2O : Bool
  skipWeaviate : Bool
  skipPostgres : Bool
  downloadData : Except Err Unit
  loadRaw : Except Err Frame
  processH2O : Frame → Except Err Frame
  processPandas : Frame → Except Err Frame
  ingestWeaviate : Frame → Except Err Unit
  loadPostgres : Frame → Except Err Unit

/-- Lines 337-338: `download_data()` then `load_raw_dataframe()`; either
failure propagates uncaught (fatal), yielding the raw frame otherwise. -/
def fetchLoadStage (env : OrchEnv) : List Event × Except Err Frame :=
  match env.downloadData with
  | .error e => ([.fetchCall], .error e)
  | .ok _ =>
    match env.loadRaw with
    | .error e => ([.fetchCall, .loadCall], .error e)
    | .ok dfRaw => ([.fetchCall, .loadCall], .ok dfRaw)

/-- Lines 340-347: pandas directly when `SKIP_H2O`; otherwise try H2O and,
on any exception, log the failure and fall back to pandas on the same
raw frame.  A pandas failure propagates uncaught. -/
def processStage (env : OrchEnv) (dfRaw : Frame) : List Event × Except Err Frame :=
  if env.skipH2O then
    ([.pandasInvoked], env.processPandas dfRaw)
  else
    match env.processH2O dfRaw with
    | .ok d => ([.h2oInvoked], .ok d)
    | .error e => ([.h2oInvoked, .h2oFailedLog e, .pandasInvoked], env.processPandas dfRaw)

/-- Lines 349-360: skip with a log, or invoke `ingest_into_weaviate` and
catch any exception, logging it; the stage never propagates a failure. -/
def weaviateStage (env : OrchEnv) (df : Frame) : List Event :=
  if env.skipWeaviate then
    [.skipWeaviateLog]
  else
    match env.ingestWeaviate df with
    | .ok _ => [.weaviateInvoked]
    | .error e => [.weaviateInvoked, .weaviateFailedLog e]

/-- Lines 362-366: skip with a log, or invoke `load_into_postgres`; its
exception propagates uncaught. -/
def postgresStage (env : OrchEnv) (df : Frame) : List Event × Except Err Unit :=
  if env.skipPostgres then
    ([.skipPostgresLog], .ok ())
  else
    match env.loadPostgres df with
    | .ok _ => ([.postgresInvoked], .ok ())
    | .error e => ([.postgresInvoked], .error e)

/-- `main` (lines 327-372): the event trace of the run together with its
outcome (`.ok ()` = the process exits successfully, `.error e` = the
uncaught exception terminating it).  The final completion log of
line 368 is reached only when no fatal stage failed. -/
def mainRun (env : OrchEnv) : List Event × Except Err Unit :=
  let fl := fetchLoadStage env
  match fl.2 with
  | .error e => (fl.1, .error e)
  | .ok dfRaw =>
    let pr := processStage env dfRaw
    match pr.2 with
    | .error e => (fl.1 ++ pr.1, .error e)
    | .ok df =>
      let wv := weaviateStage env df
      let pg := postgresStage env df
      match pg.2 with
      | .error e => (fl.1 ++ pr.1 ++ wv ++ pg.1, .error e)
      | .ok _ => (fl.1 ++ pr.1 ++ wv ++ pg.1 ++ [.completedLog], .ok ())

/-- The cleaned frame handed to both sinks, when the run reaches them:
the fetch/load and processing stages all succeeded. -/
def processedFrame (env : OrchEnv) : Option Frame :=
  match (fetchLoadStage env).2 with
  | .error _ => none
  | .ok dfRaw => ((processStage env dfRaw).2).toOption

/-- Concrete run environment: H2O skipped, Weaviate ingestion raising,
Postgres succeeding; used to instantiate the isolation theorem. -/
def envC1 : OrchEnv :=
  { skipH2O := true, skipWeaviate := false, skipPostgres := false
    downloadData := Except.ok (), loadRaw := Except.ok []
    processH2O := fun _ => Except.error "h2o down"
    processPandas := fun df => Except.ok df
    ingestWeaviate := fun _ => Except.error "weaviate down"
    loadPostgres := fun _ => Except.ok () }

/-- Concrete run environment with a failing Postgres load. -/
def envC2 : OrchEnv :=
  { skipH2O := true, skipWeaviate := true, skipPostgres := false
    downloadData := Except.ok (), loadRaw := Except.ok []
    processH2O := fun _ => Except.error "h2o down"
    processPandas := fun df => Except.ok df
    ingestWeaviate := fun _ => Except.ok ()
    loadPostgres := fun _ => Except.error "pg down" }

/-- The all-empty document record, used as a `getD` default. -/
def emptyRecord : DocRecord :=
  { location := "", city := "", country := "", parameter := ""
    value := none, unit := "" }

/-- Concrete frame in the shape of the spec's Scenario A: allow-list
columns `location` and `value` (one null value), plus an extra column. -/
def dfC4 : Frame :=
  [("location", [some (Val.str "loc1"), none, some (Val.str "loc2")]),
   ("value", [some (Val.num 10), none, some (Val.num 5)]),
   ("extra", [some (Val.num 1), some (Val.num 2), some (Val.num 3)])]

/-- Concrete frame sharing no column with the allow-list. -/
def dfC7 : Frame :=
  [("foo", [some (Val.num 1)]), ("bar", [none])]

/-- Concrete frame for the document-record theorem: a `value` column with
a null, a `city` column, the other attribute columns absent. -/
def dfC9 : Frame :=
  [("value", [some (Val.num 2), none]),
   ("city", [some (Val.str "x"), some (Val.str "y")])]

/-- Concrete run environment whose H2O engine raises and whose pandas
fallback also raises. -/
def envC3 : OrchEnv :=
  { skipH2O := false, skipWeaviate := true, skipPostgres := true
    downloadData := Except.ok (), loadRaw := Except.ok []
    processH2O := fun _ => Except.error "h2o died"
    processPandas := fun _ => Except.error "pandas died"
    ingestWeaviate := fun _ => Except.ok ()
    loadPostgres := fun _ => Except.ok () }

end H2OIngest

namespace H2OIngest

theorem completedLog_not_mem_fetchLoad (env : OrchEnv) :
    Event.completedLog ∉ (fetchLoadStage env).1 := by
  unfold fetchLoadStage
  cases env.downloadData with
  | error e => simp
  | ok u => cases env.loadRaw with
    | error e => simp
    | ok d => simp

theorem completedLog_not_mem_process (env : OrchEnv) (d : Frame) :
    Event.completedLog ∉ (processStage env d).1 := by
  unfold processStage
  by_cases h : env.skipH2O = true
  · simp [h]
  · simp only [Bool.not_eq_true] at h
    cases hh : env.processH2O d <;> simp [h, hh]

theorem completedLog_not_mem_weaviate (env : OrchEnv) (d : Frame) :
    Event.completedLog ∉ weaviateStage env d := by
  unfold weaviateStage
  by_cases h : env.skipWeaviate = true
  · simp [h]
  · simp only [Bool.not_eq_true] at h
    cases hh : env.ingestWeaviate d <;> simp [h, hh]

theorem completedLog_not_mem_postgres (env : OrchEnv) (d : Frame) :
    Event.completedLog ∉ (postgresStage env d).1 := by
  unfold postgresStage
  by_cases h : env.skipPostgres = true
  · simp [h]
  · simp only [Bool.not_eq_true] at h
    cases hh : env.loadPostgres d <;> simp [h, hh]

/-- C1: when the document-store ingestion stage is enabled and raises,
`main` catches the exception and logs it, the relational sink is still
invoked, and (the warehouse write succeeding) the run outcome is
success — the document-sink failure does not change the exit status. -/
theorem weaviate_failure_isolated (env : OrchEnv) (f : Frame) (e : Err)
    (hp : processedFrame env = some f)
    (hw : env.skipWeaviate = false)
    (he : env.ingestWeaviate f = .error e)
    (hs : env.skipPostgres = false)
    (hg : env.loadPostgres f = .ok ()) :
    Event.weaviateFailedLog e ∈ (mainRun env).1 ∧
    Event.postgresInvoked ∈ (mainRun env).1 ∧
    (mainRun env).2 = .ok () := by
  unfold processedFrame at hp
  cases hfl : (fetchLoadStage env).2 with
  | error e0 => rw [hfl] at hp; simp at hp
  | ok dfRaw =>
    rw [hfl] at hp
    change ((processStage env dfRaw).2).toOption = some f at hp
    cases hps : (processStage env dfRaw).2 with
    | error e0 => rw [hps] at hp; simp [Except.toOption] at hp
    | ok d =>
      rw [hps] at hp
      simp only [Except.toOption, Option.some.injEq] at hp
      subst hp
      simp [mainRun, hfl, hps, weaviateStage, postgresStage, hw, he, hs, hg]

/-- Closed instance of `weaviate_failure_isolated` on `envC1`. -/
theorem weaviate_failure_isolated_witness :
    processedFrame envC1 = some [] ∧
    (Event.weaviateFailedLog "weaviate down" ∈ (mainRun envC1).1 ∧
     Event.postgresInvoked ∈ (mainRun envC1).1 ∧
     (mainRun envC1).2 = .ok ()) :=
  ⟨rfl, weaviate_failure_isolated envC1 [] "weaviate down" rfl rfl rfl rfl rfl⟩

/-- C2: a warehouse-write failure is not caught: the exception is the
run's outcome and the completion log of line 368 is never reached. -/
theorem postgres_failure_fatal (env : OrchEnv) (f : Frame) (e : Err)
    (hp : processedFrame env = some f)
    (hs : env.skipPostgres = false)
    (hg : env.loadPostgres f = .error e) :
    (mainRun env).2 = .error e ∧
    Event.completedLog ∉ (mainRun env).1 := by
  unfold processedFrame at hp
  cases hfl : (fetchLoadStage env).2 with
  | error e0 => rw [hfl] at hp; simp at hp
  | ok dfRaw =>
    rw [hfl] at hp
    change ((processStage env dfRaw).2).toOption = some f at hp
    cases hps : (processStage env dfRaw).2 with
    | error e0 => rw [hps] at hp; simp [Except.toOption] at hp
    | ok d =>
      rw [hps] at hp
      simp only [Except.toOption, Option.some.injEq] at hp
      subst hp
      have hpg : (postgresStage env d).2 = .error e := by
        simp [postgresStage, hs, hg]
      constructor
      · simp [mainRun, hfl, hps, hpg]
      · simp only [mainRun, hfl, hps, hpg]
        intro hmem
        rcases List.mem_append.mp hmem with hmem | hmem
        · rcases List.mem_append.mp hmem with hmem | hmem
          · rcases List.mem_append.mp hmem with hmem | hmem
            · exact completedLog_not_mem_fetchLoad env hmem
            · exact completedLog_not_mem_process env dfRaw hmem
          · exact completedLog_not_mem_weaviate env d hmem
        · exact completedLog_not_mem_postgres env d hmem

/-- Closed instance of `postgres_failure_fatal` on `envC2`. -/
theorem postgres_failure_fatal_witness :
    processedFrame envC2 = some [] ∧
    ((mainRun envC2).2 = .error "pg down" ∧
     Event.completedLog ∉ (mainRun envC2).1) :=
  ⟨rfl, postgres_failure_fatal envC2 [] "pg down" rfl rfl rfl⟩

/-- C3: when the primary H2O engine raises, `main` catches it, logs the
failure, and invokes the pandas fallback on the same raw frame; a
fallback success becomes the cleaned frame of the run, and a fallback
failure propagates uncaught as the run's outcome. -/
theorem h2o_failure_falls_back (env : OrchEnv) (dfRaw : Frame) (e : Err)
    (hfl : (fetchLoadStage env).2 = .ok dfRaw)
    (hsk : env.skipH2O = false)
    (hh : env.processH2O dfRaw = .error e) :
    Event.h2oFailedLog e ∈ (mainRun env).1 ∧
    Event.pandasInvoked ∈ (mainRun env).1 ∧
    (∀ d, env.processPandas dfRaw = .ok d → processedFrame env = some d) ∧
    (∀ e2, env.processPandas dfRaw = .error e2 → (mainRun env).2 = .error e2) := by
  cases hpp : env.processPandas dfRaw with
  | error e2 =>
    have hps : processStage env dfRaw = ([.h2oInvoked, .h2oFailedLog e, .pandasInvoked], .error e2) := by
      simp [processStage, hsk, hh, hpp]
    refine ⟨?_, ?_, ?_, ?_⟩
    · simp [mainRun, hfl, hps]
    · simp [mainRun, hfl, hps]
    · intro d hd; exact absurd hd (by simp)
    · intro e3 he3
      simp only [Except.error.injEq] at he3
      subst he3
      simp [mainRun, hfl, hps]
  | ok d0 =>
    have hps : processStage env dfRaw = ([.h2oInvoked, .h2oFailedLog e, .pandasInvoked], .ok d0) := by
      simp [processStage, hsk, hh, hpp]
    refine ⟨?_, ?_, ?_, ?_⟩
    · cases hpg : (postgresStage env d0).2 <;>
        simp [mainRun, hfl, hps, hpg]
    · cases hpg : (postgresStage env d0).2 <;>
        simp [mainRun, hfl, hps, hpg]
    · intro d hd
      simp only [Except.ok.injEq] at hd
      subst hd
      simp [processedFrame, hfl, hps, Except.toOption]
    · intro e2 he2; exact absurd he2 (by simp)

/-- Closed instance of `h2o_failure_falls_back` on `envC3`, whose pandas
fallback also raises. -/
theorem h2o_failure_falls_back_witness :
    (fetchLoadStage envC3).2 = .ok [] ∧
    (Event.h2oFailedLog "h2o died" ∈ (mainRun envC3).1 ∧
     Event.pandasInvoked ∈ (mainRun envC3).1 ∧
     (∀ d, envC3.processPandas [] = .ok d → processedFrame envC3 = some d) ∧
     (∀ e2, envC3.processPandas [] = .error e2 → (mainRun envC3).2 = .error e2)) :=
  ⟨rfl, h2o_failure_falls_back envC3 [] "h2o died" rfl rfl rfl⟩

/-- C6: once `h2o.init()` has succeeded, `process_with_h2o` attempts the
engine shutdown on every exit path, the invocation's outcome is exactly
the cleaning body's outcome (a shutdown failure never replaces it), and
a shutdown exception is caught and logged, never re-raised. -/
theorem engine_released_on_all_paths (env : H2OEnv)
    (h : env.engineStart = .ok ()) :
    HEvent.shutdownCall ∈ (process_with_h2o_run env).1 ∧
    (process_with_h2o_run env).2 = env.body ∧
    (∀ e, env.engineStop = .error e →
      HEvent.shutdownWarnLog e ∈ (process_with_h2o_run env).1) := by
  cases hstop : env.engineStop <;>
    simp [process_with_h2o_run, h, hstop]

/-- C5 counterexample: the claim says any exception raised while opening
the connection is logged as a warning and retried, but line 73 of
ingest.py places `_connect_weaviate_v4()` outside the `try` block: with
a connection-opening error at the very first iteration (and `list_all`
otherwise fine, timeout 120), the loop neither logs a warning nor
retries — the exception escapes the loop immediately. -/
theorem connect_error_escapes_loop :
    wait_for_weaviate
        ⟨fun _ => .error .weaviateBase, fun _ => .ok (), fun _ => 0⟩ 120 5
      = some (.raised 0 .weaviateBase, []) := rfl

/-- C5 amended: with the connection opened, any exception raised by the
catalog-listing call — whatever its class — is logged as its warning
message and, before the wall-clock timeout, the loop retries at the
next iteration; the continuation is identical for every error class,
which only selects the warning message prepended to the log. -/
theorem listall_errors_logged_and_retried (env : WEnv) (timeout : Int)
    (fuel k : Nat) (e : WErr)
    (hc : env.connect k = .ok ())
    (hl : env.listAll k = .error e)
    (ht : ¬ env.elapsed k > timeout) :
    wait_for_weaviate_go env timeout (fuel + 1) k
      = (wait_for_weaviate_go env timeout fuel (k + 1)).map
          (fun p => (p.1, warnMsgOf e :: WLog.retryLog :: p.2)) := by
  simp [wait_for_weaviate_go, hc, hl, ht]

/-- Closed instance of `listall_errors_logged_and_retried` at a concrete
environment whose catalog call always fails with the generic class. -/
theorem listall_errors_logged_and_retried_witness :
    wait_for_weaviate_go
        ⟨fun _ => .ok (), fun _ => .error .other, fun _ => 0⟩ 120 1 0
      = (wait_for_weaviate_go
            ⟨fun _ => .ok (), fun _ => .error .other, fun _ => 0⟩ 120 0 1).map
          (fun p => (p.1, warnMsgOf .other :: WLog.retryLog :: p.2)) :=
  listall_errors_logged_and_retried
    ⟨fun _ => .ok (), fun _ => .error .other, fun _ => 0⟩ 120 0 0 .other
    rfl rfl (by decide)

/-- C10: the readiness loop raises its timeout error only after a full
failed attempt: whatever the timeout (zero and negative included), a
`timedOut` outcome at iteration `j` means the connection at `j` was
opened, the catalog call at `j` raised, and only then was the elapsed
time found past the timeout. -/
theorem timeout_only_after_failed_attempt (env : WEnv) (timeout : Int)
    (fuel k j : Nat) (ls : List WLog)
    (h : wait_for_weaviate_go env timeout fuel k = some (.timedOut j, ls)) :
    env.connect j = .ok () ∧
    (∃ e, env.listAll j = .error e) ∧
    env.elapsed j > timeout := by
  induction fuel generalizing k ls with
  | zero => simp [wait_for_weaviate_go] at h
  | succ fuel ih =>
    rw [wait_for_weaviate_go] at h
    split at h
    next e heq => simp at h
    next u heq =>
      split at h
      next v heq2 => simp at h
      next e heq2 =>
        split at h
        next ht =>
          simp only [Option.some.injEq, Prod.mk.injEq, WaitRes.timedOut.injEq] at h
          obtain ⟨hkj, -⟩ := h
          subst hkj
          cases u
          exact ⟨heq, ⟨e, heq2⟩, ht⟩
        next ht =>
          obtain ⟨⟨q1, q2⟩, hq, hfq⟩ := Option.map_eq_some'.mp h
          simp only [Prod.mk.injEq] at hfq
          obtain ⟨hq1, -⟩ := hfq
          subst hq1
          exact ih (k + 1) q2 hq

/-- Closed instance of `timeout_only_after_failed_attempt` with a
negative timeout: even then, one connect + catalog attempt precedes the
timeout error. -/
theorem timeout_only_after_failed_attempt_witness :
    (⟨fun _ => .ok (), fun _ => .error .other, fun _ => 5⟩ : WEnv).connect 0 = .ok () ∧
    (∃ e, (⟨fun _ => .ok (), fun _ => .error .other, fun _ => 5⟩ : WEnv).listAll 0 = .error e) ∧
    (⟨fun _ => .ok (), fun _ => .error .other, fun _ => 5⟩ : WEnv).elapsed 0 > -1 :=
  timeout_only_after_failed_attempt
    ⟨fun _ => .ok (), fun _ => .error .other, fun _ => 5⟩ (-1) 1 0 0
    [warnMsgOf .other] (by decide)

/-- C8: the schema ensurer is idempotent on every store state: applying
it twice equals applying it once, an existing collection makes it a
no-op, a missing collection is created with the fixed six-attribute
schema, and the resulting number of collections named `WEAVIATE_CLASS`
is never more than one beyond what already existed — never a duplicate. -/
theorem ensure_schema_idempotent (s : Store) :
    ensure_weaviate_schema (ensure_weaviate_schema s) = ensure_weaviate_schema s ∧
    (WEAVIATE_CLASS ∈ storeNames s → ensure_weaviate_schema s = s) ∧
    (WEAVIATE_CLASS ∉ storeNames s →
      ensure_weaviate_schema s = s ++ [(WEAVIATE_CLASS, measurementProperties)]) ∧
    (storeNames (ensure_weaviate_schema s)).count WEAVIATE_CLASS
      = max 1 ((storeNames s).count WEAVIATE_CLASS) := by
  by_cases hm : WEAVIATE_CLASS ∈ storeNames s
  · have hid : ensure_weaviate_schema s = s := by
      simp [ensure_weaviate_schema, hm]
    refine ⟨by rw [hid, hid], fun _ => hid, fun hnot => absurd hm hnot, ?_⟩
    rw [hid]
    exact (Nat.max_eq_right (List.one_le_count_iff.mpr hm)).symm
  · have hcr : ensure_weaviate_schema s
        = s ++ [(WEAVIATE_CLASS, measurementProperties)] := by
      simp [ensure_weaviate_schema, hm]
    have hnames : storeNames (s ++ [(WEAVIATE_CLASS, measurementProperties)])
        = storeNames s ++ [WEAVIATE_CLASS] := by
      simp [storeNames]
    refine ⟨?_, fun hmem => absurd hmem hm, fun _ => hcr, ?_⟩
    · rw [hcr]
      have hmem2 : WEAVIATE_CLASS
          ∈ storeNames (s ++ [(WEAVIATE_CLASS, measurementProperties)]) := by
        rw [hnames]; simp
      simp [ensure_weaviate_schema, hmem2]
    · rw [hcr, hnames, List.count_append]
      rw [List.count_eq_zero.mpr hm]
      simp

/-- Closed instance of `ensure_schema_idempotent` on the empty store:
the collection is created once with the fixed schema, and a second call
changes nothing. -/
theorem ensure_schema_idempotent_witness :
    WEAVIATE_CLASS ∉ storeNames [] ∧
    ensure_weaviate_schema [] = [] ++ [(WEAVIATE_CLASS, measurementProperties)] :=
  ⟨by decide, (ensure_schema_idempotent []).2.2.1 (by decide)⟩

theorem colNames_cons (c : Column) (cs : List Column) :
    colNames (c :: cs) = c.1 :: colNames cs := rfl

theorem lookupCol_eq_none_iff (df : Frame) (n : String) :
    lookupCol df n = none ↔ n ∉ colNames df := by
  induction df with
  | nil => simp [lookupCol, colNames]
  | cons c cs ih =>
    rw [colNames_cons]
    simp only [lookupCol, List.mem_cons, not_or]
    by_cases h : c.1 = n
    · simp [h]
    · rw [if_neg h, ih]
      constructor
      · intro hn
        exact ⟨fun he => h he.symm, hn⟩
      · intro hn
        exact hn.2

theorem lookupCol_isSome_of_mem {df : Frame} {n : String}
    (h : n ∈ colNames df) : ∃ cells, lookupCol df n = some cells := by
  cases hl : lookupCol df n with
  | none => exact absurd h ((lookupCol_eq_none_iff df n).mp hl)
  | some cells => exact ⟨cells, rfl⟩

theorem colNames_filterCols (df : Frame) (q : String → Bool) :
    colNames (df.filter (fun c => q c.1)) = (colNames df).filter q := by
  induction df with
  | nil => rfl
  | cons c cs ih =>
    cases h : q c.1 <;>
      simp [colNames_cons, List.filter_cons, h, ih]

theorem lookupCol_filterCols (df : Frame) (q : String → Bool) (n : String)
    (hq : q n = true) :
    lookupCol (df.filter (fun c => q c.1)) n = lookupCol df n := by
  induction df with
  | nil => rfl
  | cons c cs ih =>
    by_cases h : c.1 = n
    · subst h; simp [List.filter_cons, hq, lookupCol]
    · by_cases h2 : q c.1 <;> simp [List.filter_cons, h2, lookupCol, h, ih]

theorem lookupCol_mapCells (df : Frame) (g : List Cell → List Cell) (n : String) :
    lookupCol (df.map (fun c => (c.1, g c.2))) n = (lookupCol df n).map g := by
  induction df with
  | nil => rfl
  | cons c cs ih => by_cases h : c.1 = n <;> simp [lookupCol, h, ih]

theorem colNames_mapCells (df : Frame) (g : List Cell → List Cell) :
    colNames (df.map (fun c => (c.1, g c.2))) = colNames df := by
  induction df with
  | nil => rfl
  | cons c cs ih => simp only [List.map_cons, colNames_cons, ih]

theorem maskFilter_isSome (xs : List Cell) :
    ∀ x ∈ maskFilter (xs.map Option.isSome) xs, x.isSome = true := by
  induction xs with
  | nil => intro x hx; simp [maskFilter] at hx
  | cons y ys ih =>
    intro x hx
    simp only [List.map_cons, maskFilter] at hx
    by_cases h : y.isSome = true
    · rw [if_pos h] at hx
      rcases List.mem_cons.mp hx with h1 | h1
      · subst h1; exact h
      · exact ih x h1
    · rw [if_neg h] at hx; exact ih x hx

theorem getD_some_mem (vc : List Cell) (i : Nat) (v : Val)
    (h : vc.getD i none = some v) : some v ∈ vc := by
  rw [List.getD_eq_getElem?_getD] at h
  cases hg : vc[i]? with
  | none => rw [hg] at h; simp at h
  | some c =>
    rw [hg] at h
    simp only [Option.getD_some] at h
    subst h
    exact List.getElem?_mem hg

theorem projectStep_none (df : Frame)
    (hfe : (colNames df).filter (fun c => decide (c ∈ SELECT_COLS)) = []) :
    projectStep df = (df, [PLog.warnNoCols]) := by
  unfold projectStep
  rw [hfe]

theorem projectStep_matched (df : Frame) (a : String) (l : List String)
    (hfe : (colNames df).filter (fun c => decide (c ∈ SELECT_COLS)) = a :: l) :
    projectStep df
      = (df.filter (fun c => decide (c.1 ∈ SELECT_COLS)), [PLog.keepingCols (a :: l)]) := by
  unfold projectStep
  rw [hfe]

theorem filterStep_none (df1 : Frame)
    (hlv : lookupCol df1 "value" = none) :
    filterStep df1 = (df1, [PLog.warnNoValue]) := by
  unfold filterStep
  rw [hlv]

theorem filterStep_some (df1 : Frame) (vcells : List Cell)
    (hlv : lookupCol df1 "value" = some vcells) :
    filterStep df1
      = (df1.map (fun c => (c.1, maskFilter (vcells.map Option.isSome) c.2)),
         [PLog.droppedRows (rowCount df1
            - rowCount (df1.map (fun c => (c.1, maskFilter (vcells.map Option.isSome) c.2))))]) := by
  unfold filterStep
  rw [hlv]

theorem h2o_project_fst (df : Frame) :
    (h2o_project df).1 = (projectStep df).1 := by
  unfold h2o_project projectStep
  cases hfe : (colNames df).filter (fun c => decide (c ∈ SELECT_COLS)) <;> rfl

theorem h2o_dropMissing_fst (df1 : Frame) :
    (h2o_dropMissing df1).1 = (filterStep df1).1 := by
  unfold h2o_dropMissing filterStep
  cases hlv : lookupCol df1 "value" <;> rfl

/-- C4: on a frame with label-unique columns of a common row count whose
columns include `value`, the cleaning of `process_with_pandas` keeps
exactly the allow-list columns in their original relative order and
leaves only rows with a non-null `value`; when `value` is absent no row
is dropped; and the H2O cleaning steps produce the same frame.  (Label
uniqueness matches pandas, whose duplicate-label boolean row indexing
is ill-defined.) -/
theorem clean_contract_allowlist_nonnull (df : Frame)
    (hnd : (colNames df).Nodup) (hwf : wellFormed df) :
    (h2o_clean df).1 = (process_with_pandas df).1 ∧
    ("value" ∈ colNames df →
      colNames (process_with_pandas df).1
        = (colNames df).filter (fun c => decide (c ∈ SELECT_COLS)) ∧
      ∀ vc, lookupCol (process_with_pandas df).1 "value" = some vc →
        ∀ x ∈ vc, x.isSome = true) ∧
    ("value" ∉ colNames df → rowCount (process_with_pandas df).1 = rowCount df) := by
  refine ⟨?_, ?_, ?_⟩
  · show (h2o_dropMissing (h2o_project df).1).1 = (filterStep (projectStep df).1).1
    rw [h2o_project_fst, h2o_dropMissing_fst]
  · intro hv
    have hvS : decide ("value" ∈ SELECT_COLS) = true := by decide
    have hkeep : "value" ∈ (colNames df).filter (fun c => decide (c ∈ SELECT_COLS)) :=
      List.mem_filter.mpr ⟨hv, hvS⟩
    cases hfe : (colNames df).filter (fun c => decide (c ∈ SELECT_COLS)) with
    | nil => rw [hfe] at hkeep; simp at hkeep
    | cons a l =>
      have hproj := projectStep_matched df a l hfe
      obtain ⟨vcells, hlv⟩ := lookupCol_isSome_of_mem hv
      have hlv1 : lookupCol (df.filter (fun c => decide (c.1 ∈ SELECT_COLS))) "value"
          = some vcells := by
        rw [lookupCol_filterCols df (fun c => decide (c ∈ SELECT_COLS)) "value" hvS]
        exact hlv
      have hpp1 : (process_with_pandas df).1
          = (df.filter (fun c => decide (c.1 ∈ SELECT_COLS))).map
              (fun c => (c.1, maskFilter (vcells.map Option.isSome) c.2)) := by
        show (filterStep (projectStep df).1).1 = _
        rw [hproj]
        rw [show ((df.filter (fun c => decide (c.1 ∈ SELECT_COLS)),
            [PLog.keepingCols (a :: l)]) : Frame × List PLog).1
          = df.filter (fun c => decide (c.1 ∈ SELECT_COLS)) from rfl]
        rw [filterStep_some _ vcells hlv1]
      constructor
      · rw [hpp1,
          colNames_mapCells _ (maskFilter (vcells.map Option.isSome)),
          colNames_filterCols df (fun c => decide (c ∈ SELECT_COLS))]
        exact hfe
      · intro vc hvc
        rw [hpp1,
          lookupCol_mapCells _ (maskFilter (vcells.map Option.isSome)) _,
          hlv1] at hvc
        simp only [Option.map_some', Option.some.injEq] at hvc
        subst hvc
        exact maskFilter_isSome vcells
  · intro hnv
    have hlvd : lookupCol df "value" = none := (lookupCol_eq_none_iff df "value").mpr hnv
    cases hfe : (colNames df).filter (fun c => decide (c ∈ SELECT_COLS)) with
    | nil =>
      have h1 : (process_with_pandas df).1 = df := by
        show (filterStep (projectStep df).1).1 = df
        rw [projectStep_none df hfe]
        rw [show ((df, [PLog.warnNoCols]) : Frame × List PLog).1 = df from rfl]
        rw [filterStep_none df hlvd]
      rw [h1]
    | cons a l =>
      have hproj := projectStep_matched df a l hfe
      have hnv2 : "value" ∉ colNames (df.filter (fun c => decide (c.1 ∈ SELECT_COLS))) := by
        rw [colNames_filterCols df (fun c => decide (c ∈ SELECT_COLS))]
        intro hmem
        exact hnv (List.mem_of_mem_filter hmem)
      have hlv2 : lookupCol (df.filter (fun c => decide (c.1 ∈ SELECT_COLS))) "value" = none :=
        (lookupCol_eq_none_iff _ _).mpr hnv2
      have h1 : (process_with_pandas df).1
          = df.filter (fun c => decide (c.1 ∈ SELECT_COLS)) := by
        show (filterStep (projectStep df).1).1 = _
        rw [hproj]
        rw [show ((df.filter (fun c => decide (c.1 ∈ SELECT_COLS)),
            [PLog.keepingCols (a :: l)]) : Frame × List PLog).1
          = df.filter (fun c => decide (c.1 ∈ SELECT_COLS)) from rfl]
        rw [filterStep_none _ hlv2]
      rw [h1]
      have hne2 : df.filter (fun c => decide (c.1 ∈ SELECT_COLS)) ≠ [] := by
        intro habs
        have h3 : (colNames df).filter (fun c => decide (c ∈ SELECT_COLS)) = [] := by
          rw [← colNames_filterCols df (fun c => decide (c ∈ SELECT_COLS)), habs]
          rfl
        rw [hfe] at h3
        exact List.noConfusion h3
      cases hfil : df.filter (fun c => decide (c.1 ∈ SELECT_COLS)) with
      | nil => exact absurd hfil hne2
      | cons c rest =>
        have hmemc : c ∈ df := List.mem_of_mem_filter (hfil ▸ List.mem_cons_self c rest)
        simpa [rowCount] using hwf c hmemc

/-- Closed instance of `clean_contract_allowlist_nonnull` on the
Scenario-A-shaped frame: the kept columns are exactly the allow-list
ones, in order. -/
theorem clean_contract_allowlist_nonnull_witness :
    "value" ∈ colNames dfC4 ∧
    colNames (process_with_pandas dfC4).1
      = (colNames dfC4).filter (fun c => decide (c ∈ SELECT_COLS)) :=
  ⟨by decide,
   ((clean_contract_allowlist_nonnull dfC4 (by decide)
      (by unfold wellFormed; decide)).2.1 (by decide)).1⟩

/-- C7: when the frame shares no column with the allow-list, the cleaning
is the identity on the frame and emits the two warnings (none-matched
projection, no `value` column) — a normal return, not an error. -/
theorem no_allowlist_identity (df : Frame)
    (h : ∀ c ∈ colNames df, ¬ c ∈ SELECT_COLS) :
    process_with_pandas df = (df, [PLog.warnNoCols, PLog.warnNoValue]) := by
  have hfe : (colNames df).filter (fun c => decide (c ∈ SELECT_COLS)) = [] := by
    rw [List.filter_eq_nil_iff]
    intro a ha
    simpa using h a ha
  have hlvd : lookupCol df "value" = none := by
    rw [lookupCol_eq_none_iff]
    intro hv
    exact h "value" hv (by decide)
  show ((filterStep (projectStep df).1).1, (projectStep df).2 ++ (filterStep (projectStep df).1).2)
    = (df, [PLog.warnNoCols, PLog.warnNoValue])
  rw [projectStep_none df hfe]
  rw [show ((df, [PLog.warnNoCols]) : Frame × List PLog).1 = df from rfl]
  rw [filterStep_none df hlvd]
  rfl

/-- Closed instance of `no_allowlist_identity` on `dfC7`. -/
theorem no_allowlist_identity_witness :
    (∀ c ∈ colNames dfC7, ¬ c ∈ SELECT_COLS) ∧
    process_with_pandas dfC7 = (dfC7, [PLog.warnNoCols, PLog.warnNoValue]) :=
  ⟨by decide, no_allowlist_identity dfC7 (by decide)⟩

/-- C9: on a frame whose `value` cells are numeric-or-null (as a cleaned
frame's are; Python's `float()` would raise otherwise), the single
`insert_many` payload has exactly one record per frame row, the record
at row `i` is `buildRecord df i`, every text attribute defaults to the
empty string when its source column is absent, and the `value`
attribute is the row's number exactly when the row's `value` cell is
non-null, absent otherwise (also when the whole column is absent). -/
theorem document_records_one_per_row (df : Frame) (i : Nat)
    (hi : i < rowCount df)
    (hnum : ∀ vc, lookupCol df "value" = some vc →
      ∀ x ∈ vc, ∀ s, x ≠ some (Val.str s)) :
    (weaviate_objects df).length = rowCount df ∧
    (weaviate_objects df).getD i emptyRecord = buildRecord df i ∧
    (lookupCol df "location" = none → (buildRecord df i).location = "") ∧
    (lookupCol df "city" = none → (buildRecord df i).city = "") ∧
    (lookupCol df "country" = none → (buildRecord df i).country = "") ∧
    (lookupCol df "parameter" = none → (buildRecord df i).parameter = "") ∧
    (lookupCol df "unit" = none → (buildRecord df i).unit = "") ∧
    (lookupCol df "value" = none → (buildRecord df i).value = none) ∧
    (∀ vc, lookupCol df "value" = some vc →
      (∀ n, vc.getD i none = some (Val.num n) → (buildRecord df i).value = some n) ∧
      ((buildRecord df i).value = none ↔ vc.getD i none = none)) := by
  refine ⟨?_, ?_, ?_, ?_, ?_, ?_, ?_, ?_, ?_⟩
  · simp [weaviate_objects]
  · rw [weaviate_objects, List.getD_eq_getElem?_getD,
      List.getElem?_map (buildRecord df) (List.range (rowCount df)) i,
      List.getElem?_range hi]
    rfl
  · intro h; simp [buildRecord, textAttr, h]
  · intro h; simp [buildRecord, textAttr, h]
  · intro h; simp [buildRecord, textAttr, h]
  · intro h; simp [buildRecord, textAttr, h]
  · intro h; simp [buildRecord, textAttr, h]
  · intro h; simp [buildRecord, numAttr, h]
  · intro vc hvc
    constructor
    · intro n hcell
      simp only [buildRecord, numAttr, hvc, hcell, floatOfVal]
    · cases hcell : vc.getD i none with
      | none => simp only [buildRecord, numAttr, hvc, hcell]
      | some v =>
        cases v with
        | num n =>
          simp only [buildRecord, numAttr, hvc, hcell, floatOfVal]
          simp
        | str s =>
          exact absurd rfl (hnum vc hvc (some (Val.str s)) (getD_some_mem vc i _ hcell) s)

/-- Closed instance of `document_records_one_per_row` on `dfC9`: one
record per row, and the absent `location` column becomes the empty
string. -/
theorem document_records_one_per_row_witness :
    0 < rowCount dfC9 ∧
    (buildRecord dfC9 0).location = "" :=
  ⟨by decide,
   (document_records_one_per_row dfC9 0 (by decide)
      (by
        intro vc hvc x hx s
        have hvc2 : [some (Val.num 2), none] = vc := by
          simpa [dfC9, lookupCol] using hvc
        subst hvc2
        rcases List.mem_cons.mp hx with h1 | h1
        · subst h1; simp
        · simp only [List.mem_singleton] at h1
          subst h1; simp)).2.2.1 rfl⟩

/-- Closed instance of `engine_released_on_all_paths`: a failing body and
a failing shutdown; the body's error is kept, the shutdown error only
logged. -/
theorem engine_released_on_all_paths_witness :
    (H2OEnv.mk (Except.ok ()) (Except.error "body died") (Except.error "stop died")).engineStart = .ok () ∧
    (HEvent.shutdownCall ∈ (process_with_h2o_run (H2OEnv.mk (Except.ok ()) (Except.error "body died") (Except.error "stop died"))).1 ∧
     (process_with_h2o_run (H2OEnv.mk (Except.ok ()) (Except.error "body died") (Except.error "stop died"))).2 = Except.error "body died" ∧
     (∀ e, (H2OEnv.mk (Except.ok ()) (Except.error "body died") (Except.error "stop died")).engineStop = .error e →
       HEvent.shutdownWarnLog e ∈ (process_with_h2o_run (H2OEnv.mk (Except.ok ()) (Except.error "body died") (Except.error "stop died"))).1)) :=
  ⟨rfl, engine_released_on_all_paths (H2OEnv.mk (Except.ok ()) (Except.error "body died") (Except.error "stop died")) rfl⟩

end H2OIngest
